import Mathlib

/-!
Verification of the Moler observation runtime (moler/asyncio_runner.py) and
the configuration loader (moler/config/__init__.py) against its specification.

Shallow embedding conventions:
* python floats used as wall-clock times and timeouts are embedded as rationals;
* python exceptions are embedded as values of the inductive type `Exc`;
  code that may raise is embedded in `Except Exc`;
* mutation of a python object becomes explicit state passing;
* environment-dependent outcomes (whether an asyncio future is already done,
  whether the bridged coroutine finished in time, ...) are oracle parameters;
* logging calls and the `_submitted_futures` bookkeeping list of the runner
  have no observable effect on the properties below and are not modelled.
-/

/-- Python exception values that appear in the modelled code paths. -/
inductive Exc
  | molerTimeout (timeout : Option ℚ) (passedTime : ℚ)
  | molerException (msg : String)
  | wrongUsage (msg : String)
  | keyError (msg : String)
  | assertionError
  | transportError (msg : String)
  | cancelledError
  | other (msg : String)
deriving DecidableEq, Repr

/-- Modelled from the spec: the observer lifetime state machine of
moler/connection_observer.py (not under src/). States per spec section 4.2;
the runner only ever sees started observers, so `unstarted` is not needed. -/
inductive ObsState
  | running
  | succeeded (result : Nat)
  | failed (exc : Exc)
  | cancelled
deriving DecidableEq, Repr

/-- Modelled from the spec: the fields of a connection observer that the
runner code reads or writes (moler/connection_observer.py is not under src/).
`timeout` is the relative deadline in seconds; it may be mutated while
running. `isCommand`/`commandString` drive the send-at-submit behaviour. -/
structure Observer where
  state : ObsState := .running
  startTime : ℚ := 1
  timeout : Option ℚ := none
  isCommand : Bool := false
  commandString : String := ""
deriving DecidableEq, Repr

/-- Modelled from the spec: done() is true exactly in a terminal state. -/
def Observer.done (o : Observer) : Bool :=
  match o.state with
  | .running => false
  | _ => true

/-- Modelled from the spec: terminal states are sticky, so set_exception on a
done observer is ignored; otherwise the observer becomes failed. -/
def Observer.setException (o : Observer) (e : Exc) : Observer :=
  if o.done then o else { o with state := .failed e }

/-- Modelled from the spec: set_result, sticky like set_exception. -/
def Observer.setResult (o : Observer) (r : Nat) : Observer :=
  if o.done then o else { o with state := .succeeded r }

/-- Modelled from the spec: cancel() is a terminal transition to cancelled
unless the observer already reached a terminal state. -/
def Observer.cancel (o : Observer) : Observer :=
  if o.done then o else { o with state := .cancelled }

/-- Modelled from the spec: the stored exception, present iff state = failed. -/
def Observer.exception (o : Observer) : Option Exc :=
  match o.state with
  | .failed e => some e
  | _ => none

/-- Modelled from the spec: time_out_observer of moler/runner.py (not under
src/) transitions the observer to failed with a Timeout carrying the fired
timeout value and the elapsed time. -/
def time_out_observer (o : Observer) (timeout : Option ℚ) (passedTime : ℚ) : Observer :=
  o.setException (.molerTimeout timeout passedTime)

/-- The behaviour of one data_received(chunk) call of domain code, used as an
oracle when a chunk is delivered: it may do nothing, set a result, set an
exception, mutate the timeout of the live observer, or raise. -/
inductive FeedAct
  | noEffect
  | setsResult (r : Nat)
  | setsException (e : Exc)
  | setsTimeout (t : Option ℚ)
  | raises (e : Exc)
deriving DecidableEq, Repr

/-- Applies one data_received behaviour to the observer; `.raises` escapes. -/
def applyFeed : FeedAct → Observer → Except Exc Observer
  | .noEffect, o => .ok o
  | .setsResult r, o => .ok (o.setResult r)
  | .setsException e, o => .ok (o.setException e)
  | .setsTimeout t, o => .ok { o with timeout := t }
  | .raises e, _ => .error e

/-- The try-suite of secure_data_received (asyncio_runner.py lines 413-417):
a chunk for a done observer, or while the runner is in shutdown, is dropped
without calling data_received; otherwise data_received runs under the
observer lock. The Bool records whether data_received was invoked. -/
def secure_data_received_try (inShutdown : Bool) (act : FeedAct) (o : Observer) :
    Except Exc (Observer × Bool) :=
  if o.done || inShutdown then .ok (o, false)
  else
    match applyFeed act o with
    | .ok oNext => .ok (oNext, true)
    | .error e => .error e

/-- secure_data_received (asyncio_runner.py lines 412-429): the sink the
runner subscribes on the connection. The except-clause catches any exception
escaping data_received and stores it on the observer under the observer lock;
the finally-clause only logs and is not modelled. -/
def secure_data_received (inShutdown : Bool) (act : FeedAct) (o : Observer) :
    Observer × Bool :=
  match secure_data_received_try inShutdown act o with
  | .ok v => v
  | .error e => (o.setException e, true)

/-- One iteration of the progress loop of AsyncioRunner.feed
(asyncio_runner.py lines 454-470): exit when done; re-read the observer
timeout and fail the observer with Timeout when the run duration reached it;
cancel (without immediate exit) when the runner is in shutdown. The returned
Bool is true when the loop breaks. -/
def feedTick (inShutdown : Bool) (now : ℚ) (o : Observer) : Observer × Bool :=
  if o.done then (o, true)
  else
    let runDuration := now - o.startTime
    match o.timeout with
    | some t =>
      if runDuration ≥ t then (time_out_observer o (some t) runDuration, true)
      else if inShutdown then (o.cancel, false) else (o, false)
    | none => if inShutdown then (o.cancel, false) else (o, false)

/-- An event in the interleaved execution of one observer: either the
connection delivers a chunk to the subscribed sink, or the progress loop of
feed() runs one tick. Each event carries the runner shutdown flag it sees. -/
inductive FeedEvent
  | deliver (inShutdown : Bool) (act : FeedAct)
  | tick (inShutdown : Bool) (now : ℚ)
deriving DecidableEq, Repr

/-- Runs a sequence of events over the observer. `broken` records that the
progress loop has exited; after that the sink is unsubscribed (finally-clause
of feed()) so further events have no effect. -/
def runFeed (o : Observer) (broken : Bool) : List FeedEvent → Observer × Bool
  | [] => (o, broken)
  | .deliver sd act :: rest =>
    if broken then runFeed o broken rest
    else runFeed (secure_data_received sd act o).1 false rest
  | .tick sd now :: rest =>
    if broken then runFeed o broken rest
    else
      let p := feedTick sd now o
      runFeed p.1 p.2 rest

theorem runFeed_append (xs ys : List FeedEvent) (o : Observer) (b : Bool) :
    runFeed o b (xs ++ ys) = runFeed (runFeed o b xs).1 (runFeed o b xs).2 ys := by
  induction xs generalizing o b with
  | nil => simp [runFeed]
  | cons e rest ih =>
    cases e with
    | deliver sd act =>
      by_cases hb : b <;> simp [runFeed, hb, ih]
    | tick sd now =>
      by_cases hb : b <;> simp [runFeed, hb, ih]

theorem Observer.done_false_of_running (o : Observer) (h : o.state = .running) :
    o.done = false := by
  simp [Observer.done, h]

/-- C5: once an observer is done, or its runner is in shutdown, a chunk
delivered to the installed sink is silently discarded: data_received is not
invoked and the observer is unchanged (asyncio_runner.py lines 413-415). -/
theorem post_terminal_chunk_discarded (sd : Bool) (act : FeedAct) (o : Observer)
    (h : o.done = true ∨ sd = true) :
    secure_data_received sd act o = (o, false) := by
  have hcond : (o.done || sd) = true := by
    rcases h with h | h <;> simp [h]
  simp [secure_data_received, secure_data_received_try, hcond]

/-- Witness for C5 at a concrete terminal observer. -/
theorem post_terminal_chunk_discarded_witness :
    secure_data_received false (.setsResult 7)
        { state := .succeeded 1, startTime := 0, timeout := none,
          isCommand := false, commandString := "" }
      = ({ state := .succeeded 1, startTime := 0, timeout := none,
           isCommand := false, commandString := "" }, false) :=
  post_terminal_chunk_discarded false (.setsResult 7)
    { state := .succeeded 1, startTime := 0, timeout := none,
      isCommand := false, commandString := "" }
    (Or.inl (by decide))

/-- C6: an exception raised by data_received during chunk delivery is caught
by the sink and stored as the observer exception (set_exception under the
observer lock); the sink returns normally, so nothing propagates to the
connection (the except-clause of asyncio_runner.py lines 419-423, embedded as
the total match of `secure_data_received` over `secure_data_received_try`). -/
theorem feed_exception_stored (sd : Bool) (act : FeedAct) (o : Observer) (e : Exc)
    (hrun : o.state = .running) (hsd : sd = false) (hact : act = .raises e) :
    secure_data_received sd act o = (o.setException e, true)
      ∧ (secure_data_received sd act o).1.state = .failed e := by
  have hdone := Observer.done_false_of_running o hrun
  subst hsd hact
  constructor
  · simp [secure_data_received, secure_data_received_try, hdone, applyFeed]
  · simp [secure_data_received, secure_data_received_try, hdone, applyFeed,
      Observer.setException, hdone]

/-- Witness for C6 at a concrete running observer and a raising feed. -/
theorem feed_exception_stored_witness :
    secure_data_received false (.raises (.other "parse error"))
        { state := .running, startTime := 0, timeout := some 10,
          isCommand := false, commandString := "" }
      = (Observer.setException
          { state := .running, startTime := 0, timeout := some 10,
            isCommand := false, commandString := "" } (.other "parse error"), true)
    ∧ (secure_data_received false (.raises (.other "parse error"))
        { state := .running, startTime := 0, timeout := some 10,
          isCommand := false, commandString := "" }).1.state
      = .failed (.other "parse error") :=
  feed_exception_stored false (.raises (.other "parse error"))
    { state := .running, startTime := 0, timeout := some 10,
      isCommand := false, commandString := "" }
    (.other "parse error") rfl rfl rfl

/-- C1: at every progress tick of the feed loop, the runner re-reads the
current timeout of the live observer (so a timeout mutated by an earlier
chunk delivery is honoured) and, if the elapsed time since start_time has
reached that current value, transitions the observer to failed with a
Timeout; if it has not, the tick leaves the observer unchanged (or cancels it
under shutdown). Deliveries and ticks interleave, so the tick following a
chunk delivery performs this check against the post-delivery timeout, which
realises the re-check at feed-return (asyncio_runner.py lines 454-470). -/
theorem deadline_rechecked_each_tick (o oc : Observer) (pre : List FeedEvent)
    (now : ℚ) (sd : Bool) (t : ℚ)
    (hoc : runFeed o false pre = (oc, false))
    (hrun : oc.state = .running)
    (htmo : oc.timeout = some t) :
    (now - oc.startTime ≥ t →
      (runFeed o false (pre ++ [.tick sd now])).1.state
        = .failed (.molerTimeout (some t) (now - oc.startTime)))
    ∧ (now - oc.startTime < t →
      (runFeed o false (pre ++ [.tick sd now])).1
        = if sd then oc.cancel else oc) := by
  have hdone := Observer.done_false_of_running oc hrun
  have happ := runFeed_append pre [.tick sd now] o false
  rw [hoc] at happ
  constructor
  · intro hfire
    rw [happ]
    simp [runFeed, feedTick, hdone, htmo, hfire, time_out_observer,
      Observer.setException, hdone]
  · intro hnot
    rw [happ]
    have hnfire : ¬ (now - oc.startTime ≥ t) := not_le.mpr hnot
    cases sd with
    | false => simp [runFeed, feedTick, hdone, htmo, hnfire]
    | true => simp [runFeed, feedTick, hdone, htmo, hnfire]

/-- Witness for C1: an observer started with timeout 10 whose timeout is
shortened to 2 by a chunk delivery; the next tick at wall-clock 3 honours the
mutated value and fails the observer with a Timeout, while a tick at
wall-clock 1 would leave it running. -/
theorem deadline_rechecked_each_tick_witness :
    (runFeed { state := .running, startTime := 0, timeout := some 10,
               isCommand := false, commandString := "" } false
        [.deliver false (.setsTimeout (some 2))]
      = ({ state := .running, startTime := 0, timeout := some 2,
           isCommand := false, commandString := "" }, false))
    ∧ ((3 : ℚ) - 0 ≥ 2 →
      (runFeed { state := .running, startTime := 0, timeout := some 10,
                 isCommand := false, commandString := "" } false
          ([.deliver false (.setsTimeout (some 2))] ++ [.tick false 3])).1.state
        = .failed (.molerTimeout (some 2) ((3 : ℚ) - 0))) := by
  refine ⟨by decide, ?_⟩
  exact (deadline_rechecked_each_tick
    { state := .running, startTime := 0, timeout := some 10,
      isCommand := false, commandString := "" }
    { state := .running, startTime := 0, timeout := some 2,
      isCommand := false, commandString := "" }
    [.deliver false (.setsTimeout (some 2))] 3 false 2
    (by decide) rfl rfl).1

/-- Modelled from the spec: the publish/subscribe connection (ByteBus) as far
as the runner touches it (moler/threaded_moler_connection.py is not under
src/): a count of installed sinks and the lines sent on it. The sendFailure
field is the oracle for the underlying transport: when set, a send on this
bus fails with that exception (TransportError per spec section 4.1). -/
structure MolerConnection where
  subscribersCount : Nat := 0
  sentLines : List String := []
  sendFailure : Option Exc := Option.none
deriving DecidableEq, Repr

/-- Installing one sink on the connection. -/
def MolerConnection.subscribe (c : MolerConnection) : MolerConnection :=
  { c with subscribersCount := c.subscribersCount + 1 }

/-- Modelled from the spec: sendline (used for commands at submit time) hands
the line to the transport outbound and fails with TransportError when the
transport reports failure (spec section 4.1). -/
def MolerConnection.sendline (c : MolerConnection) (line : String) :
    Except Exc MolerConnection :=
  match c.sendFailure with
  | some e => .error e
  | Option.none => .ok { c with sentLines := c.sentLines ++ [line] }

/-- The caller-visible handle: a concurrent/asyncio future. `resolved` is
done(); cancel() on a done future is a no-op, otherwise it resolves the
future as cancelled. -/
structure MolerFuture where
  resolved : Bool := false
  wasCancelled : Bool := false
deriving DecidableEq, Repr

def MolerFuture.done (f : MolerFuture) : Bool := f.resolved

def MolerFuture.cancel (f : MolerFuture) : MolerFuture :=
  if f.resolved then f else { resolved := true, wasCancelled := true }

/-- The refusal message of check_system_resources_limit (asyncio_runner.py
lines 53-55); the source spells Cannot with an apostrophe and also reports
thread count, both elided here. -/
def limit_msg (maxSoft currFds : Int) : String :=
  "Cannot run new asyncio loop - ALMOST REACHED MAX OPEN FILES LIMIT ("
    ++ toString maxSoft ++ "). Now " ++ toString currFds ++ " FDs open."

/-- check_system_resources_limit (asyncio_runner.py lines 48-76): when the
current open-descriptor count exceeds the soft limit minus 10, the observer
gets the refusal exception (under the observer lock) and a pre-resolved
concurrent future (set_result None) is produced; otherwise None. -/
def check_system_resources_limit (maxOpenFilesLimitSoft currFdsOpen : Int)
    (o : Observer) : Option (MolerFuture × Observer) :=
  if currFdsOpen > maxOpenFilesLimitSoft - 10 then
    some ({ resolved := true, wasCancelled := false },
          o.setException (.molerException (limit_msg maxOpenFilesLimitSoft currFdsOpen)))
  else none

/-- Oracle for the state of the asyncio task right after ensure_future inside
AsyncioRunner.submit (asyncio_runner.py lines 202-218): normally pending;
done-with-result logs a warning and proceeds; done-with-exception re-raises. -/
inductive EnsuredOutcome
  | pending
  | doneWithResult (r : Nat)
  | doneWithError (e : Exc)
deriving DecidableEq, Repr

/-- What a successful AsyncioRunner.submit returns together with the mutated
observer and connection. -/
structure SubmitOk where
  future : MolerFuture
  observer : Observer
  conn : MolerConnection
deriving DecidableEq, Repr

/-- AsyncioRunner.submit (asyncio_runner.py lines 160-224): resource-limit
check first (refusal returns the pre-resolved future without subscribing);
then the assert on start_time; then _start_feeding subscribes the sink and,
for a command, sends its command string with no try/except around it (line
435), so a transport failure there propagates out of submit; finally the feed
task is scheduled and, if that task is already done with an exception, submit
re-raises it. -/
def AsyncioRunner_submit (soft fds : Int) (ensured : EnsuredOutcome)
    (o : Observer) (conn : MolerConnection) : Except Exc SubmitOk :=
  match check_system_resources_limit soft fds o with
  | some (fut, oFailed) => .ok ⟨fut, oFailed, conn⟩
  | none =>
    if 0 < o.startTime then
      let conn1 := conn.subscribe
      match (if o.isCommand then conn1.sendline o.commandString else .ok conn1) with
      | .error e => .error e
      | .ok conn2 =>
        match ensured with
        | .doneWithError e => .error e
        | .doneWithResult _ => .ok ⟨{ resolved := true, wasCancelled := false }, o, conn2⟩
        | .pending => .ok ⟨{ resolved := false, wasCancelled := false }, o, conn2⟩
    else .error .assertionError

/-- A fresh running observer used as concrete input below. -/
def sampleRunningObserver : Observer :=
  { state := .running, startTime := 1, timeout := none,
    isCommand := false, commandString := "" }

/-- A connection with no subscribers and nothing sent. -/
def emptyConnection : MolerConnection := { subscribersCount := 0, sentLines := [] }

/-- C2 counterexample: with soft limit 100 and 90 descriptors open the
process is within 10 of the soft limit, yet submit admits the observer: it
installs a subscription on the connection and stores no exception, because
the source test is strictly currFdsOpen > soft - 10 (asyncio_runner.py line
52), which 90 does not satisfy. -/
theorem resource_limit_boundary_cex :
    ((100 : Int) - 90 ≤ 10)
    ∧ AsyncioRunner_submit 100 90 .pending sampleRunningObserver emptyConnection
        = .ok ⟨{ resolved := false, wasCancelled := false }, sampleRunningObserver,
               { subscribersCount := 1, sentLines := [] }⟩ := by
  constructor
  · decide
  · rfl

/-- C2 amended: for every observer submitted while the open-descriptor count
strictly exceeds the soft limit minus 10 (strictly within 10 of the limit),
submit refuses admission: the observer gets an exception naming the ceiling,
the returned future is already resolved, and no subscription is installed. -/
theorem resource_limit_refusal (soft fds : Int) (ensured : EnsuredOutcome)
    (o : Observer) (conn : MolerConnection)
    (h : soft - 10 < fds) :
    AsyncioRunner_submit soft fds ensured o conn
      = .ok ⟨{ resolved := true, wasCancelled := false },
             o.setException (.molerException (limit_msg soft fds)), conn⟩ := by
  simp [AsyncioRunner_submit, check_system_resources_limit, h]

/-- Witness for the amended C2 at the concrete numbers of the spec example:
soft limit 100 with 95 descriptors open. -/
theorem resource_limit_refusal_witness :
    AsyncioRunner_submit 100 95 .pending sampleRunningObserver emptyConnection
      = .ok ⟨{ resolved := true, wasCancelled := false },
             Observer.setException sampleRunningObserver
               (.molerException (limit_msg 100 95)), emptyConnection⟩ :=
  resource_limit_refusal 100 95 .pending sampleRunningObserver emptyConnection
    (by decide)

/-- Python truthiness of an optional float timeout: None and 0.0 are falsy
(used by the fired_timeout fallback in both wait_for variants). -/
def truthyTimeout : Option ℚ → Bool
  | none => false
  | some t => if t = 0 then false else true

/-- The head line of the message built by _raise_wrong_usage_of_wait_for
(asyncio_runner.py lines 358-372); the caller name found by stack inspection
is await_done in the documented usage, and the apostrophes and the multi-line
usage hint of the source message are elided. -/
def wrong_usage_msg : String :=
  "Cannot call await_done() from async def - it is blocking call"

/-- Oracle for how _run_via_asyncio ends inside AsyncioRunner.wait_for:
the future completes, is cancelled (asyncio CancelledError), or the
timeout-limited wait raises asyncio TimeoutError. -/
inductive RunOutcome
  | completed
  | wasCancelled
  | timedOut
deriving DecidableEq, Repr

/-- What wait_for leaves behind: an exception propagated to the caller (if
any), the observer, and the future. -/
structure WaitResult where
  err : Option Exc
  observer : Observer
  future : MolerFuture
deriving DecidableEq, Repr

/-- AsyncioRunner.wait_for (asyncio_runner.py lines 226-285): an already-done
observer only gets its future cancelled; a running event loop makes
_raise_wrong_usage_of_wait_for raise WrongUsage, which the surrounding
exception_stored_if_not_main_thread context (moler/util/connection_observer.py,
not under src/; modelled from the spec) propagates on the main thread and
stores as the observer exception elsewhere; otherwise the run outcome is
handled: CancelledError cancels the observer, TimeoutError times it out under
the observer lock with fired_timeout = timeout if truthy else the observer
timeout and passed time measured from the observer start_time. The
finally-clause always cancels the future. -/
def AsyncioRunner_wait_for (isMainThread loopRunning : Bool) (outcome : RunOutcome)
    (timeout : Option ℚ) (now : ℚ) (o : Observer) (fut : MolerFuture) : WaitResult :=
  if o.done then
    { err := none, observer := o, future := if fut.done then fut else fut.cancel }
  else if loopRunning then
    let futC := fut.cancel
    if isMainThread then
      { err := some (.wrongUsage wrong_usage_msg), observer := o, future := futC }
    else
      { err := none, observer := o.setException (.wrongUsage wrong_usage_msg),
        future := futC }
  else
    match outcome with
    | .completed => { err := none, observer := o, future := fut.cancel }
    | .wasCancelled => { err := none, observer := o.cancel, future := fut.cancel }
    | .timedOut =>
      let passed := now - o.startTime
      let fired := if truthyTimeout timeout then timeout else o.timeout
      { err := none, observer := time_out_observer o fired passed,
        future := fut.cancel }

/-- C4: when wait_for is called on a not-yet-done observer with a (truthy)
caller timeout and the timeout-limited wait fires first, then before wait_for
returns the observer has been transitioned to failed with a Timeout carrying
that timeout value (set under the observer lock), and the future has been
cancelled. -/
theorem wait_for_timeout_fails_observer (isMain : Bool) (timeout : Option ℚ)
    (T now : ℚ) (o : Observer) (fut : MolerFuture)
    (hnd : o.done = false) (hT : timeout = some T) (hpos : 0 < T) :
    (AsyncioRunner_wait_for isMain false .timedOut timeout now o fut).err = none
    ∧ (AsyncioRunner_wait_for isMain false .timedOut timeout now o fut).observer.state
        = .failed (.molerTimeout (some T) (now - o.startTime))
    ∧ (AsyncioRunner_wait_for isMain false .timedOut timeout now o fut).future
        = fut.cancel
    ∧ (fut.resolved = false →
        (AsyncioRunner_wait_for isMain false .timedOut timeout now o fut).future
          = { resolved := true, wasCancelled := true }) := by
  have hTne : ¬ T = 0 := ne_of_gt hpos
  subst hT
  refine ⟨?_, ?_, ?_, ?_⟩
  · simp [AsyncioRunner_wait_for, hnd]
  · simp [AsyncioRunner_wait_for, hnd, truthyTimeout, hTne, time_out_observer,
      Observer.setException, hnd]
  · simp [AsyncioRunner_wait_for, hnd]
  · intro hfr
    simp [AsyncioRunner_wait_for, hnd, MolerFuture.cancel, hfr]

/-- Witness for C4 at concrete values: caller timeout 2 fires at wall-clock 5
on an observer started at 0 with its own timeout 10. -/
theorem wait_for_timeout_fails_observer_witness :
    (AsyncioRunner_wait_for true false .timedOut (some 2) 5
        { state := .running, startTime := 0, timeout := some 10,
          isCommand := false, commandString := "" }
        { resolved := false, wasCancelled := false }).observer.state
      = .failed (.molerTimeout (some 2) ((5 : ℚ) - 0))
    ∧ (AsyncioRunner_wait_for true false .timedOut (some 2) 5
        { state := .running, startTime := 0, timeout := some 10,
          isCommand := false, commandString := "" }
        { resolved := false, wasCancelled := false }).future
      = { resolved := true, wasCancelled := true } := by
  have h := wait_for_timeout_fails_observer true (some 2) 2 5
    { state := .running, startTime := 0, timeout := some 10,
      isCommand := false, commandString := "" }
    { resolved := false, wasCancelled := false }
    (by decide) rfl (by norm_num)
  exact ⟨h.2.1, h.2.2.2 rfl⟩

/-- Oracle for how the bridged wait inside AsyncioInThreadRunner.wait_for
ends: the awaited future completes; run_async_coroutine raises MolerTimeout;
concurrent CancelledError; or some other exception escapes the wait. -/
inductive InThreadWaitOutcome
  | completed
  | timedOutWait
  | wasCancelled
  | raised (e : Exc)
deriving DecidableEq, Repr

/-- AsyncioInThreadRunner.wait_for (asyncio_runner.py lines 589-647): done
observers return at once; otherwise the try-suite first raises WrongUsage
when the event loop of the current thread is running, but that exception is
caught by the broad except-Exception clause which stores it on the observer
(when different from the stored one) and returns None; MolerTimeout from the
bridged wait falls through to time_out_observer with passed time measured
from the entry of wait_for; CancelledError cancels the observer. The
finally-clause cancels a not-yet-done future through the loop thread. -/
def AsyncioInThreadRunner_wait_for (loopRunning : Bool) (outcome : InThreadWaitOutcome)
    (timeout : Option ℚ) (now waitStartTime : ℚ) (o : Observer) (fut : MolerFuture) :
    WaitResult :=
  if o.done then { err := none, observer := o, future := fut }
  else
    let futC := if fut.done then fut else fut.cancel
    if loopRunning then
      let oNext := if o.exception = some (.wrongUsage wrong_usage_msg) then o
                   else o.setException (.wrongUsage wrong_usage_msg)
      { err := none, observer := oNext, future := futC }
    else
      match outcome with
      | .completed => { err := none, observer := o, future := futC }
      | .wasCancelled => { err := none, observer := o.cancel, future := futC }
      | .raised e =>
        let oNext := if o.exception = some e then o else o.setException e
        { err := none, observer := oNext, future := futC }
      | .timedOutWait =>
        let passed := now - waitStartTime
        let fired := if truthyTimeout timeout then timeout else o.timeout
        { err := none, observer := time_out_observer o fired passed, future := futC }

/-- C7 counterexample: the dedicated-loop-thread backend does not raise
WrongUsage to the caller when wait_for runs while the event loop of the
current thread is running: the exception is caught by the except-Exception
clause, stored as the observer exception, and wait_for returns normally. -/
theorem inthread_wait_swallows_wrong_usage_cex :
    (AsyncioInThreadRunner_wait_for true .completed none 0 0
        sampleRunningObserver { resolved := false, wasCancelled := false }).err = none
    ∧ (AsyncioInThreadRunner_wait_for true .completed none 0 0
        sampleRunningObserver { resolved := false, wasCancelled := false }).observer.state
      = .failed (.wrongUsage wrong_usage_msg) := by
  constructor
  · rfl
  · rfl

/-- C7 amended: calling wait_for on a not-yet-done observer while the current
thread cooperative scheduler is running does not block in either backend: the
inline-cooperative backend raises WrongUsage to the caller when invoked on
the main thread, while the dedicated-loop-thread backend catches the
WrongUsage internally, stores it as the observer exception and returns
normally (the exception is re-raised later from result()). -/
theorem wait_in_loop_wrong_usage (outcome : RunOutcome) (outcome2 : InThreadWaitOutcome)
    (timeout timeout2 : Option ℚ) (now now2 ws : ℚ) (o o2 : Observer)
    (fut fut2 : MolerFuture)
    (h1 : o.done = false) (h2 : o2.done = false) (hexc : o2.exception = none) :
    (AsyncioRunner_wait_for true true outcome timeout now o fut).err
        = some (.wrongUsage wrong_usage_msg)
    ∧ (AsyncioInThreadRunner_wait_for true outcome2 timeout2 now2 ws o2 fut2).err = none
    ∧ (AsyncioInThreadRunner_wait_for true outcome2 timeout2 now2 ws o2 fut2).observer.state
        = .failed (.wrongUsage wrong_usage_msg) := by
  have h2run : o2.state = .running := by
    cases hs : o2.state with
    | running => rfl
    | succeeded r => rw [Observer.done, hs] at h2; cases h2
    | failed e => rw [Observer.done, hs] at h2; cases h2
    | cancelled => rw [Observer.done, hs] at h2; cases h2
  have hne : ¬ o2.exception = some (.wrongUsage wrong_usage_msg) := by
    rw [hexc]; intro h; cases h
  refine ⟨?_, ?_, ?_⟩
  · simp [AsyncioRunner_wait_for, h1]
  · simp [AsyncioInThreadRunner_wait_for, h2, hne]
  · simp [AsyncioInThreadRunner_wait_for, h2, hne, Observer.setException,
      h2, Observer.done, h2run]

/-- Witness for the amended C7 at concrete observers. -/
theorem wait_in_loop_wrong_usage_witness :
    (AsyncioRunner_wait_for true true .completed none 0 sampleRunningObserver
        { resolved := false, wasCancelled := false }).err
      = some (.wrongUsage wrong_usage_msg)
    ∧ (AsyncioInThreadRunner_wait_for true .completed none 0 0 sampleRunningObserver
        { resolved := false, wasCancelled := false }).err = none
    ∧ (AsyncioInThreadRunner_wait_for true .completed none 0 0 sampleRunningObserver
        { resolved := false, wasCancelled := false }).observer.state
      = .failed (.wrongUsage wrong_usage_msg) :=
  wait_in_loop_wrong_usage .completed .completed none none 0 0 0
    sampleRunningObserver sampleRunningObserver
    { resolved := false, wasCancelled := false }
    { resolved := false, wasCancelled := false }
    rfl rfl rfl

/-- The recognized sections of a configuration document (spec section 6),
embedded as association lists so that deep comparison of the python document
becomes decidable structural equality. -/
structure ConfigDict where
  namedConnections : List (String × String) := []
  ioTypes : List (String × String) := []
  devices : List (String × String) := []
  logger : List (String × String) := []
deriving DecidableEq, Repr

/-- Python truthiness of a dict: empty is falsy. -/
def ConfigDict.isEmptyDict (c : ConfigDict) : Bool :=
  c.namedConnections.isEmpty && c.ioTypes.isEmpty && c.devices.isEmpty
    && c.logger.isEmpty

/-- The config parameter of load_config: a dict, a filename string, or None. -/
inductive ConfigParam
  | dict (c : ConfigDict)
  | str (path : String)
  | none
deriving DecidableEq, Repr

/-- Python truthiness of the config parameter. -/
def ConfigParam.truthy : ConfigParam → Bool
  | .dict c => !c.isEmptyDict
  | .str s => !(s = "")
  | .none => false

/-- The config_type parameter of load_config. -/
inductive ConfigTypeParam
  | yaml
  | dict
  | other (s : String)
deriving DecidableEq, Repr

/-- configs_are_same (config/__init__.py lines 52-64); compare_objects of
moler/helpers.py is not under src/ and is modelled from the spec as deep
(structural) equality of configuration documents. -/
def configs_are_same (configList : List ConfigParam) (configToFind : ConfigParam) :
    Bool :=
  configList.any (fun c => c = configToFind)

/-- The mutable module state of moler.config. `loadedConfig = none` stands
for the NOT_LOADED_YET sentinel. The three effect lists record the calls to
load_logger_from_config, load_connection_from_config and
load_device_from_config (with its add_only flag); their bodies act on the
moler.config.loggers / connections / devices modules, which are not under
src/, so the calls are recorded as effects and modelled from the spec. -/
structure MolerConfigState where
  loadedConfig : Option (List ConfigParam) := Option.none
  loggerLoads : List ConfigDict := []
  connectionLoads : List ConfigDict := []
  deviceLoads : List (ConfigDict × Bool) := []
deriving DecidableEq, Repr

/-- os.path.isabs on POSIX: the path begins with a slash. -/
def os_path_isabs (p : String) : Bool :=
  match p.data with
  | [] => false
  | c :: _ => c = '/' 

/-- read_yaml_configfile (config/__init__.py lines 37-49): requires an
absolute path, then parses the file; `fs` is the filesystem oracle giving the
parsed YAML content of existing files. -/
def read_yaml_configfile (fs : String → Option ConfigDict) (path : String) :
    Except Exc ConfigDict :=
  if os_path_isabs path then
    match fs path with
    | some c => .ok c
    | Option.none => .error (.other ("cannot open " ++ path))
  else
    .error (.molerException
      ("Loading configuration requires absolute path and not " ++ path))

/-- Resolution of the configuration document inside load_config
(config/__init__.py lines 91-103), after the config_type validation: a falsy
config falls back to the environment variable, a yaml config names a file to
read, a dict config is used directly; the isinstance asserts are embedded as
assertionError. -/
def resolve_config_dict (fs : String → Option ConfigDict)
    (env : List (String × String)) (config : ConfigParam)
    (fromEnvVar : Option String) (configType : ConfigTypeParam) :
    Except Exc ConfigDict :=
  if !config.truthy then
    match fromEnvVar with
    | Option.none =>
      .error (.wrongUsage "Provide either config or from_env_var parameter (none given).")
    | some v =>
      match env.lookup v with
      | Option.none => .error (.keyError ("Environment variable " ++ v ++ " is not set"))
      | some path => read_yaml_configfile fs path
  else
    match configType with
    | .yaml =>
      match config with
      | .str p => read_yaml_configfile fs p
      | _ => .error .assertionError
    | .dict =>
      match config with
      | .dict c => .ok c
      | _ => .error .assertionError
    | .other _ => .error .assertionError

/-- The body of load_config after the loaded_config bookkeeping
(config/__init__.py lines 89-108): validate config_type, resolve the
document, then configure logging and connections unless add_devices_only, and
always load devices with the add_only flag. -/
def load_config_body (fs : String → Option ConfigDict)
    (env : List (String × String)) (st : MolerConfigState) (addOnly : Bool)
    (config : ConfigParam) (fromEnvVar : Option String)
    (configType : ConfigTypeParam) : Except Exc Unit × MolerConfigState :=
  if configType ≠ .dict ∧ configType ≠ .yaml then
    (.error (.wrongUsage "Unsupported config_type. Allowed are dict or yaml."), st)
  else
    match resolve_config_dict fs env config fromEnvVar configType with
    | .error e => (.error e, st)
    | .ok c =>
      let st1 := if addOnly then st
                 else { st with loggerLoads := st.loggerLoads ++ [c],
                                connectionLoads := st.connectionLoads ++ [c] }
      (.ok (), { st1 with deviceLoads := st1.deviceLoads ++ [(c, addOnly)] })

/-- load_config (config/__init__.py lines 67-108): on the first call the
sentinel is replaced by [config]; a config deep-equal to a loaded one returns
at once; a different config is appended and processed with add_devices_only.
The recording into loaded_config happens before any validation, so the state
keeps the appended config even when an exception is raised later. -/
def load_config (fs : String → Option ConfigDict) (env : List (String × String))
    (st : MolerConfigState) (config : ConfigParam) (fromEnvVar : Option String)
    (configType : ConfigTypeParam) : Except Exc Unit × MolerConfigState :=
  match st.loadedConfig with
  | Option.none =>
    load_config_body fs env { st with loadedConfig := some [config] } false
      config fromEnvVar configType
  | some l =>
    if configs_are_same l config then (.ok (), st)
    else
      load_config_body fs env { st with loadedConfig := some (l ++ [config]) } true
        config fromEnvVar configType

/-- C9: calling load_config with a configuration deep-equal to one already
loaded returns at once with the module state (and hence all effects)
unchanged; calling it with a different configuration after the first load
appends it, performs neither logger configuration nor connection
configuration, and on success performs exactly one device load with
add_only = true. -/
theorem reload_config_semantics (fs : String → Option ConfigDict)
    (env : List (String × String)) (st : MolerConfigState)
    (l : List ConfigParam) (config : ConfigParam) (fromEnvVar : Option String)
    (configType : ConfigTypeParam)
    (hloaded : st.loadedConfig = some l) :
    (configs_are_same l config = true →
      load_config fs env st config fromEnvVar configType = (.ok (), st))
    ∧ (configs_are_same l config = false →
      (load_config fs env st config fromEnvVar configType).2.loggerLoads
          = st.loggerLoads
      ∧ (load_config fs env st config fromEnvVar configType).2.connectionLoads
          = st.connectionLoads
      ∧ (load_config fs env st config fromEnvVar configType).2.loadedConfig
          = some (l ++ [config])
      ∧ ((load_config fs env st config fromEnvVar configType).1 = .ok () →
          ∃ c, (load_config fs env st config fromEnvVar configType).2.deviceLoads
            = st.deviceLoads ++ [(c, true)])) := by
  constructor
  · intro hsame
    simp [load_config, hloaded, hsame]
  · intro hdiff
    simp only [load_config, hloaded, hdiff, Bool.false_eq_true, if_false]
    unfold load_config_body
    by_cases hv : configType ≠ .dict ∧ configType ≠ .yaml
    · simp [hv]
    · simp only [hv, if_false]
      cases hres : resolve_config_dict fs env config fromEnvVar configType with
      | error e => simp
      | ok c =>
        refine ⟨rfl, rfl, rfl, ?_⟩
        intro _
        exact ⟨c, rfl⟩

/-- A sample configuration document. -/
def sampleConfigA : ConfigDict :=
  { namedConnections := [("net_1", "tcp")], ioTypes := [], devices := [],
    logger := [] }

/-- A second, different sample configuration document. -/
def sampleConfigB : ConfigDict :=
  { namedConnections := [], ioTypes := [], devices := [("dev_2", "UnixLocal")],
    logger := [] }

/-- A filesystem oracle with no readable files. -/
def emptyFs : String → Option ConfigDict := fun _ => Option.none

/-- The module state after sampleConfigA was loaded as a dict. -/
def stateAfterA : MolerConfigState :=
  { loadedConfig := some [ConfigParam.dict sampleConfigA],
    loggerLoads := [sampleConfigA], connectionLoads := [sampleConfigA],
    deviceLoads := [(sampleConfigA, false)] }

/-- Witness for C9: reloading sampleConfigA is a no-op, and loading the
different sampleConfigB touches neither logger nor connection configuration
and adds one device load with add_only = true. -/
theorem reload_config_semantics_witness :
    load_config emptyFs [] stateAfterA (.dict sampleConfigA) Option.none .dict
      = (.ok (), stateAfterA)
    ∧ ((load_config emptyFs [] stateAfterA (.dict sampleConfigB) Option.none
          .dict).2.loggerLoads = [sampleConfigA]
      ∧ (load_config emptyFs [] stateAfterA (.dict sampleConfigB) Option.none
          .dict).2.connectionLoads = [sampleConfigA]
      ∧ (∃ c, (load_config emptyFs [] stateAfterA (.dict sampleConfigB) Option.none
          .dict).2.deviceLoads = [(sampleConfigA, false)] ++ [(c, true)])) := by
  have h := reload_config_semantics emptyFs [] stateAfterA
    [ConfigParam.dict sampleConfigA] (.dict sampleConfigA) Option.none .dict rfl
  have h2 := reload_config_semantics emptyFs [] stateAfterA
    [ConfigParam.dict sampleConfigA] (.dict sampleConfigB) Option.none .dict rfl
  have hd := h2.2 (by decide)
  exact ⟨h.1 (by decide), hd.1, hd.2.1, hd.2.2.2 rfl⟩

/-- C10: load_config records the given configuration in loaded_config before
validating config_type or reading the file; with an unsupported config_type
it raises WrongUsage, and on a relative yaml path it raises MolerException,
yet in both cases the configuration counts as loaded (the recorded state is
the only change) and a subsequent call with an equal configuration returns as
a same-config no-op although the configuration was never applied. -/
theorem load_config_records_before_validation
    (fs fs2 : String → Option ConfigDict) (env env2 : List (String × String))
    (st : MolerConfigState) (config : ConfigParam) (fromEnvVar fev2 : Option String)
    (s : String) (ct2 : ConfigTypeParam) (p : String)
    (hfresh : st.loadedConfig = Option.none)
    (habs : os_path_isabs p = false) (hpne : ¬ p = "") :
    ((load_config fs env st config fromEnvVar (.other s)).1
        = .error (.wrongUsage "Unsupported config_type. Allowed are dict or yaml.")
      ∧ (load_config fs env st config fromEnvVar (.other s)).2
        = { st with loadedConfig := some [config] }
      ∧ load_config fs2 env2 (load_config fs env st config fromEnvVar (.other s)).2
          config fev2 ct2
        = (.ok (), (load_config fs env st config fromEnvVar (.other s)).2))
    ∧ ((load_config fs env st (.str p) fromEnvVar .yaml).1
        = .error (.molerException
            ("Loading configuration requires absolute path and not " ++ p))
      ∧ (load_config fs env st (.str p) fromEnvVar .yaml).2
        = { st with loadedConfig := some [ConfigParam.str p] }
      ∧ load_config fs2 env2 (load_config fs env st (.str p) fromEnvVar .yaml).2
          (.str p) fev2 ct2
        = (.ok (), (load_config fs env st (.str p) fromEnvVar .yaml).2)) := by
  have hfirst : (load_config fs env st config fromEnvVar (.other s))
      = (.error (.wrongUsage "Unsupported config_type. Allowed are dict or yaml."),
         { st with loadedConfig := some [config] }) := by
    simp [load_config, hfresh, load_config_body]
  have hsecond : (load_config fs env st (.str p) fromEnvVar .yaml)
      = (.error (.molerException
            ("Loading configuration requires absolute path and not " ++ p)),
         { st with loadedConfig := some [ConfigParam.str p] }) := by
    simp [load_config, hfresh, load_config_body, resolve_config_dict,
      ConfigParam.truthy, hpne, read_yaml_configfile, habs]
  constructor
  · refine ⟨by rw [hfirst], by rw [hfirst], ?_⟩
    rw [hfirst]
    simp [load_config, configs_are_same]
  · refine ⟨by rw [hsecond], by rw [hsecond], ?_⟩
    rw [hsecond]
    simp [load_config, configs_are_same]

/-- Witness for C10 at a fresh state, config_type json and the relative path
my.yml. -/
theorem load_config_records_before_validation_witness :
    ((load_config emptyFs [] {} (.dict sampleConfigA) Option.none (.other "json")).1
        = .error (.wrongUsage "Unsupported config_type. Allowed are dict or yaml.")
      ∧ (load_config emptyFs [] {} (.dict sampleConfigA) Option.none (.other "json")).2
        = { loadedConfig := some [ConfigParam.dict sampleConfigA], loggerLoads := [],
            connectionLoads := [], deviceLoads := [] }
      ∧ load_config emptyFs []
          (load_config emptyFs [] {} (.dict sampleConfigA) Option.none (.other "json")).2
          (.dict sampleConfigA) Option.none .yaml
        = (.ok (), (load_config emptyFs [] {} (.dict sampleConfigA) Option.none
            (.other "json")).2))
    ∧ ((load_config emptyFs [] {} (.str "my.yml") Option.none .yaml).1
        = .error (.molerException
            ("Loading configuration requires absolute path and not " ++ "my.yml"))
      ∧ (load_config emptyFs [] {} (.str "my.yml") Option.none .yaml).2
        = { loadedConfig := some [ConfigParam.str "my.yml"], loggerLoads := [],
            connectionLoads := [], deviceLoads := [] }
      ∧ load_config emptyFs []
          (load_config emptyFs [] {} (.str "my.yml") Option.none .yaml).2
          (.str "my.yml") Option.none .yaml
        = (.ok (), (load_config emptyFs [] {} (.str "my.yml") Option.none .yaml).2)) :=
  load_config_records_before_validation emptyFs emptyFs [] [] {}
    (.dict sampleConfigA) Option.none Option.none "json" .yaml "my.yml"
    rfl (by decide) (by decide)
